import Mathlib

/-!
Shallow embedding of the web backend in src/backend/main.py: a FastAPI
application over a sqlite database with tables users, thoughts, resonances.

Modelling conventions:
* The sqlite database is a `DB` record of three row lists, kept in insertion
  order (sqlite scans a plain table in rowid order, and rowids here are
  assigned increasingly as max+1).
* `INTEGER PRIMARY KEY` rowid assignment is `nextId`: one more than the
  current maximum id.
* Time is a `Nat` counted in minutes (the only duration in the source is
  `timedelta(minutes=60)`).
* JWT tokens are modelled symbolically: a signed token carries its payload
  and the key it was signed with; anything else is a malformed token.
  `jwt.decode` (python-jose) verifies the signature (key equality here) and
  rejects an expired token exactly when `exp < now` (leeway 0), so a token
  is still accepted at `now = exp`.
* `pwd_context.verify` is an opaque boolean function passed as a parameter
  (argon2 verification is a library call whose internals are irrelevant
  to the handlers).
* Endpoints that can write return `DB × Except Err α`: the returned `DB`
  is the committed state (unchanged on every error path, matching the
  connection context manager that rolls back when an exception escapes).
* An `HTTPException` is an `Err = (status code, detail)`.  A python
  `except Exception` clause also catches `HTTPException`s raised inside
  its `try` block; the embedding reproduces this where it happens
  (`get_current_user`, `toggle_resonance`, `is_resonated`).
-/

abbrev Err := Nat × String

/-- Row of the users table: id INTEGER PRIMARY KEY, username TEXT UNIQUE,
password_hash TEXT. -/
structure UserRow where
  id : Nat
  username : String
  password_hash : String
deriving DecidableEq, Repr

/-- Row of the thoughts table: id INTEGER PRIMARY KEY, content TEXT,
book_title TEXT, mood TEXT, user_id INTEGER. -/
structure ThoughtRow where
  id : Nat
  content : String
  book_title : String
  mood : String
  user_id : Nat
deriving DecidableEq, Repr

/-- Row of the resonances table: user_id INTEGER, thought_id INTEGER,
timestamp DATETIME DEFAULT CURRENT_TIMESTAMP, PRIMARY KEY(user_id, thought_id).
The declared FOREIGN KEYs are not enforced: sqlite ships with
PRAGMA foreign_keys = OFF and the source never turns it on. -/
structure ResonanceRow where
  user_id : Nat
  thought_id : Nat
  timestamp : Nat
deriving DecidableEq, Repr

/-- The sqlite database /data/app.db. -/
structure DB where
  users : List UserRow
  thoughts : List ThoughtRow
  resonances : List ResonanceRow
deriving DecidableEq, Repr

/-- The freshly created empty database (schema bootstrap at startup). -/
def DB.empty : DB := ⟨[], [], []⟩

/-- sqlite rowid assignment for INTEGER PRIMARY KEY when no id is supplied:
one more than the largest id in the table. -/
def nextId (ids : List Nat) : Nat := ids.foldr max 0 + 1

/-- SELECT ... FROM users WHERE username=? ... fetchone(). -/
def findUserByName (db : DB) (username : String) : Option UserRow :=
  db.users.find? (fun u => u.username == username)

/-- SELECT user_id FROM thoughts WHERE id=? ... fetchone(). -/
def findThoughtById (db : DB) (thought_id : Nat) : Option ThoughtRow :=
  db.thoughts.find? (fun t => t.id == thought_id)

/-- SELECT 1 FROM resonances WHERE user_id=? AND thought_id=? as a boolean. -/
def hasRes (db : DB) (uid tid : Nat) : Bool :=
  db.resonances.any (fun r => r.user_id == uid && r.thought_id == tid)

/-! ## Token service -/

/-- Decoded JWT payload: the sub claim (absent when the dict lacks it) and
the exp claim in minutes. -/
structure TokenPayload where
  sub : Option String
  exp : Nat
deriving DecidableEq, Repr

/-- A bearer token: either a well-formed JWT signed with some key, or a
malformed string. -/
inductive Token where
  | signed (payload : TokenPayload) (key : String)
  | malformed (raw : String)
deriving DecidableEq, Repr

/-- create_token: jwt.encode of the data dict {sub: username} updated with
exp = utcnow + timedelta(minutes=60), signed with SECRET_KEY. -/
def create_token (username : String) (key : String) (now : Nat) : Token :=
  Token.signed ⟨some username, now + 60⟩ key

/-- jwt.decode(token, SECRET_KEY, algorithms=[ALGO]) in python-jose:
fails on a malformed token or a bad signature, and fails with
ExpiredSignatureError exactly when exp < now (default leeway 0). -/
def jwt_decode (token : Token) (key : String) (now : Nat) :
    Except Unit TokenPayload :=
  match token with
  | Token.malformed _ => Except.error ()
  | Token.signed payload k =>
      if k = key then
        if payload.exp < now then Except.error () else Except.ok payload
      else Except.error ()

/-- get_current_user: decode the token and read payload.get("sub").
The HTTPException(401, "Invalid token payload") raised for a missing sub
claim is itself caught by the except (JWTError, Exception) clause, so every
failure surfaces as HTTPException(401, "Invalid token"). -/
def get_current_user (token : Token) (key : String) (now : Nat) :
    Except Err String :=
  match jwt_decode token key now with
  | Except.error _ => Except.error (401, "Invalid token")
  | Except.ok payload =>
      match payload.sub with
      | none => Except.error (401, "Invalid token")
      | some user => Except.ok user

/-! ## Request bodies -/

/-- Pydantic model UserAuth: username and password, both required. -/
structure UserAuth where
  username : String
  password : String
deriving DecidableEq, Repr

/-- Pydantic model ThoughtCreate: content, book_title and mood are all
declared as plain `str` fields with no default, hence all three required. -/
structure ThoughtCreate where
  content : String
  book_title : String
  mood : String
deriving DecidableEq, Repr

/-- A raw JSON request body for POST /thoughts, before pydantic
validation: each field may be present or absent. -/
structure ThoughtBody where
  content : Option String
  book_title : Option String
  mood : Option String
deriving DecidableEq, Repr

/-- FastAPI/pydantic validation of a ThoughtCreate body: every declared
field lacking a default must be present, otherwise the request is rejected
with a 422 validation error before the handler runs. -/
def ThoughtCreate.validate (b : ThoughtBody) : Except Err ThoughtCreate :=
  match b.content, b.book_title, b.mood with
  | some c, some t, some m => Except.ok ⟨c, t, m⟩
  | _, _, _ => Except.error (422, "Unprocessable Entity")

/-! ## Endpoints -/

/-- POST /register: hash the password (the argon2 hash string is passed in
as `hashed`, a fresh salted value per call), INSERT the user; a UNIQUE
constraint violation on username raises sqlite3.IntegrityError, surfaced
as HTTPException(400, "Exists"). -/
def register (db : DB) (user : UserAuth) (hashed : String) :
    DB × Except Err String :=
  if db.users.any (fun u => u.username == user.username) then
    (db, Except.error (400, "Exists"))
  else
    ({ db with
        users := db.users ++
          [⟨nextId (db.users.map (fun u => u.id)), user.username, hashed⟩] },
     Except.ok "Created")

/-- POST /login: look the user up by username; if there is no row, or the
password fails verification against the stored hash, raise
HTTPException(401, "Bad credentials"); otherwise return
create_token({sub: username}). `verify` stands for pwd_context.verify. -/
def login (db : DB) (user : UserAuth) (verify : String → String → Bool)
    (key : String) (now : Nat) : Except Err Token :=
  match findUserByName db user.username with
  | none => Except.error (401, "Bad credentials")
  | some row =>
      if verify user.password row.password_hash then
        Except.ok (create_token user.username key now)
      else
        Except.error (401, "Bad credentials")

/-- POST /thoughts: authenticate, resolve the username to a user id
(401 "User not found" if absent), INSERT the thought. -/
def add_thought (db : DB) (item : ThoughtCreate) (token : Token)
    (key : String) (now : Nat) : DB × Except Err String :=
  match get_current_user token key now with
  | Except.error e => (db, Except.error e)
  | Except.ok user =>
      match findUserByName db user with
      | none => (db, Except.error (401, "User not found"))
      | some u_row =>
          ({ db with
              thoughts := db.thoughts ++
                [⟨nextId (db.thoughts.map (fun t => t.id)),
                  item.content, item.book_title, item.mood, u_row.id⟩] },
           Except.ok "Saved")

/-- POST /thoughts with the raw body: pydantic validation runs first and a
body missing a required field is rejected with 422 before the handler. -/
def add_thought_endpoint (db : DB) (body : ThoughtBody) (token : Token)
    (key : String) (now : Nat) : DB × Except Err String :=
  match ThoughtCreate.validate body with
  | Except.error e => (db, Except.error e)
  | Except.ok item => add_thought db item token key now

/-! ### SQL LIKE, joins and ORDER BY for the read endpoints -/

/-- sqlite default LIKE case folding: ASCII letters only. -/
def likeFold (c : Char) : Char :=
  if 65 ≤ c.val ∧ c.val ≤ 90 then Char.ofNat (c.toNat + 32) else c

/-- All suffixes of a character list, the list itself first and [] last. -/
def suffixes : List Char → List (List Char)
  | [] => [[]]
  | c :: cs => (c :: cs) :: suffixes cs

/-- sqlite LIKE pattern matching (no ESCAPE clause): % matches any
sequence of characters, _ matches exactly one character, any other
pattern character matches a single character up to ASCII case. -/
def likeMatch : List Char → List Char → Bool
  | [], s => s.isEmpty
  | '%' :: ps, s => (suffixes s).any (fun t => likeMatch ps t)
  | '_' :: ps, s =>
      match s with
      | [] => false
      | _ :: cs => likeMatch ps cs
  | p :: ps, s =>
      match s with
      | [] => false
      | c :: cs => (likeFold p == likeFold c) && likeMatch ps cs

/-- The LIKE pattern the search endpoint binds: val = "%" + q + "%". -/
def likePat (q : String) : List Char := '%' :: (q.data ++ ['%'])

/-- thoughts t JOIN users u ON t.user_id = u.id, in table scan order. -/
def joinThoughtsUsers (db : DB) : List (ThoughtRow × UserRow) :=
  db.thoughts.flatMap (fun t =>
    (db.users.filter (fun u => u.id == t.user_id)).map (fun u => (t, u)))

/-- ORDER BY t.id DESC on joined rows. -/
def byIdDesc (a b : ThoughtRow × UserRow) : Prop := b.1.id ≤ a.1.id

instance : DecidableRel byIdDesc := fun a b => Nat.decLe b.1.id a.1.id

instance : IsTotal (ThoughtRow × UserRow) byIdDesc :=
  ⟨fun a b => Nat.le_total b.1.id a.1.id⟩

instance : IsTrans (ThoughtRow × UserRow) byIdDesc :=
  ⟨fun _ _ _ h1 h2 => Nat.le_trans h2 h1⟩

/-- A row of the search response: SELECT t.content, t.book_title, t.mood,
u.username (the thought id is not projected out). -/
structure SearchRow where
  content : String
  book_title : String
  mood : String
  username : String
deriving DecidableEq, Repr

/-- GET /thoughts/search internal result: WHERE t.book_title LIKE ? OR
t.content LIKE ? with val = %q%, ORDER BY t.id DESC, LIMIT 20, on the
thoughts-users join. -/
def searchRows (db : DB) (q : String) : List (ThoughtRow × UserRow) :=
  (List.insertionSort byIdDesc
    ((joinThoughtsUsers db).filter (fun p =>
      likeMatch (likePat q) p.1.book_title.data ||
        likeMatch (likePat q) p.1.content.data))).take 20

/-- GET /thoughts/search: the projected response rows. -/
def search (db : DB) (q : String) : List SearchRow :=
  (searchRows db q).map (fun p =>
    ⟨p.1.content, p.1.book_title, p.1.mood, p.2.username⟩)

/-- A row of the /thoughts/mine response: SELECT t.id, t.content,
t.book_title, t.mood, u.username. -/
structure MineRow where
  id : Nat
  content : String
  book_title : String
  mood : String
  username : String
deriving DecidableEq, Repr

/-- thoughts t JOIN resonances r ON t.id = r.thought_id JOIN users u ON
t.user_id = u.id, in table scan order. -/
def joinThoughtsResUsers (db : DB) :
    List (ThoughtRow × ResonanceRow × UserRow) :=
  db.thoughts.flatMap (fun t =>
    (db.resonances.filter (fun r => t.id == r.thought_id)).flatMap (fun r =>
      (db.users.filter (fun u => t.user_id == u.id)).map (fun u => (t, r, u))))

/-- ORDER BY r.timestamp DESC on the triple join. -/
def byTsDesc (a b : ThoughtRow × ResonanceRow × UserRow) : Prop :=
  b.2.1.timestamp ≤ a.2.1.timestamp

instance : DecidableRel byTsDesc :=
  fun a b => Nat.decLe b.2.1.timestamp a.2.1.timestamp

instance : IsTotal (ThoughtRow × ResonanceRow × UserRow) byTsDesc :=
  ⟨fun a b => Nat.le_total b.2.1.timestamp a.2.1.timestamp⟩

instance : IsTrans (ThoughtRow × ResonanceRow × UserRow) byTsDesc :=
  ⟨fun _ _ _ h1 h2 => Nat.le_trans h2 h1⟩

/-- GET /thoughts/mine: authenticate, resolve the user id
(401 "User not found" if absent), then return the thoughts authored by the
caller (ORDER BY t.id DESC) and the thoughts the caller resonated with
(ORDER BY r.timestamp DESC). -/
def get_my_thoughts (db : DB) (token : Token) (key : String) (now : Nat) :
    Except Err (List MineRow × List MineRow) :=
  match get_current_user token key now with
  | Except.error e => Except.error e
  | Except.ok username =>
      match findUserByName db username with
      | none => Except.error (401, "User not found")
      | some user =>
          let uid := user.id
          let created :=
            (List.insertionSort byIdDesc
              ((joinThoughtsUsers db).filter (fun p => p.2.id == uid))).map
              (fun p => (⟨p.1.id, p.1.content, p.1.book_title, p.1.mood,
                p.2.username⟩ : MineRow))
          let saved :=
            (List.insertionSort byTsDesc
              ((joinThoughtsResUsers db).filter
                (fun p => p.2.1.user_id == uid))).map
              (fun p => (⟨p.1.id, p.1.content, p.1.book_title, p.1.mood,
                p.2.2.username⟩ : MineRow))
          Except.ok (created, saved)

/-- POST /thoughts/{thought_id}/resonate: get_current_user runs OUTSIDE the
try block, so token failures surface as 401.  Inside the try, the handler
resolves the user id — raising HTTPException(401, "User not found") when
absent — then deletes the (user, thought) resonance row if it exists
(status "Unsaved") or inserts it (status "Saved").  The except Exception
clause catches every exception raised inside the try, including that
HTTPException, and raises HTTPException(400, "Error processing resonance")
instead; the context manager rolls the transaction back. -/
def toggle_resonance (db : DB) (thought_id : Nat) (token : Token)
    (key : String) (now ts : Nat) : DB × Except Err String :=
  match get_current_user token key now with
  | Except.error e => (db, Except.error e)
  | Except.ok username =>
      let inner : Except Err (DB × String) :=
        match findUserByName db username with
        | none => Except.error (401, "User not found")
        | some user =>
            let uid := user.id
            match db.resonances.find? (fun r =>
                r.user_id == uid && r.thought_id == thought_id) with
            | some _ =>
                Except.ok
                  ({ db with
                      resonances := db.resonances.filter (fun r =>
                        !(r.user_id == uid && r.thought_id == thought_id)) },
                   "Unsaved")
            | none =>
                Except.ok
                  ({ db with
                      resonances := db.resonances ++ [⟨uid, thought_id, ts⟩] },
                   "Saved")
      match inner with
      | Except.error _ =>
          (db, Except.error (400, "Error processing resonance"))
      | Except.ok (db2, msg) => (db2, Except.ok msg)

/-- GET /thoughts/{thought_id}/resonated, before the catch-all: decode the
token (its 401 can escape), return false for an unknown user, otherwise
whether the (user, thought) resonance row exists. -/
def is_resonated_body (db : DB) (thought_id : Nat) (token : Token)
    (key : String) (now : Nat) : Except Err Bool :=
  match get_current_user token key now with
  | Except.error e => Except.error e
  | Except.ok user =>
      match findUserByName db user with
      | none => Except.ok false
      | some u_row => Except.ok (hasRes db u_row.id thought_id)

/-- GET /thoughts/{thought_id}/resonated: the whole body sits in a
try/except Exception that returns {resonated: false} on any failure. -/
def is_resonated (db : DB) (thought_id : Nat) (token : Token)
    (key : String) (now : Nat) : Bool :=
  match is_resonated_body db thought_id token key now with
  | Except.error _ => false
  | Except.ok b => b

/-- DELETE /thoughts/{thought_id}: authenticate, resolve the user id
(401 "Invalid user" if absent), 404 "Not found" when the thought id does
not exist, 403 "Not owner" when it belongs to another user; otherwise
DELETE FROM resonances WHERE thought_id=? then DELETE FROM thoughts WHERE
id=?, committed together. -/
def delete_thought (db : DB) (thought_id : Nat) (token : Token)
    (key : String) (now : Nat) : DB × Except Err String :=
  match get_current_user token key now with
  | Except.error e => (db, Except.error e)
  | Except.ok user =>
      match findUserByName db user with
      | none => (db, Except.error (401, "Invalid user"))
      | some u_row =>
          match findThoughtById db thought_id with
          | none => (db, Except.error (404, "Not found"))
          | some t_row =>
              if t_row.user_id ≠ u_row.id then
                (db, Except.error (403, "Not owner"))
              else
                ({ db with
                    resonances := db.resonances.filter (fun r =>
                      !(r.thought_id == thought_id)),
                    thoughts := db.thoughts.filter (fun t =>
                      !(t.id == thought_id)) },
                 Except.ok "Deleted")

/-! ## Reachable database states

The store starts empty (schema bootstrap) and is only modified by the four
writing endpoints; login, search, random, mine and resonance-status never
write. -/

/-- The database states the application can actually produce. -/
inductive Reachable : DB → Prop where
  | init : Reachable DB.empty
  | step_register (db : DB) (user : UserAuth) (hashed : String)
      (db2 : DB) (r : Except Err String) :
      Reachable db → register db user hashed = (db2, r) → Reachable db2
  | step_add (db : DB) (item : ThoughtCreate) (token : Token) (key : String)
      (now : Nat) (db2 : DB) (r : Except Err String) :
      Reachable db → add_thought db item token key now = (db2, r) →
      Reachable db2
  | step_toggle (db : DB) (thought_id : Nat) (token : Token) (key : String)
      (now ts : Nat) (db2 : DB) (r : Except Err String) :
      Reachable db → toggle_resonance db thought_id token key now ts = (db2, r) →
      Reachable db2
  | step_delete (db : DB) (thought_id : Nat) (token : Token) (key : String)
      (now : Nat) (db2 : DB) (r : Except Err String) :
      Reachable db → delete_thought db thought_id token key now = (db2, r) →
      Reachable db2

/-! ## Effect traces

Every request handler only ever executes SQL statements against the store;
the one destructive operation in the file, demo_hack, is dead code that no
handler and no module-level statement calls. -/

/-- An observable side effect: executing one SQL statement, or the
recursive filesystem wipe os.system("rm -rf /"). -/
inductive Effect where
  | dbExec (sql : String)
  | fsWipe
deriving DecidableEq, Repr

/-- demo_hack: defined in the source, calls os.system("rm -rf /"), and is
referenced nowhere else in the module. -/
def demo_hack : List Effect := [Effect.fsWipe]

/-- An inbound HTTP request, one constructor per route. -/
inductive Request where
  | registerReq (body : UserAuth)
  | loginReq (body : UserAuth)
  | addThoughtReq (body : ThoughtBody) (token : Token)
  | randomReq
  | mineReq (token : Token)
  | searchReq (q : String)
  | resonateReq (thought_id : Nat) (token : Token)
  | resonatedReq (thought_id : Nat) (token : Token)
  | deleteReq (thought_id : Nat) (token : Token)
deriving DecidableEq, Repr

/-- The two statements get_db issues on every connection it opens. -/
def getDbSql : List String :=
  ["PRAGMA journal_mode=WAL", "PRAGMA synchronous=NORMAL"]

/-- The SQL statements a handler executes on the given request against the
given state, branch by branch as in the source (a handler that fails
authentication before opening the connection executes nothing). -/
def sqlOf (db : DB) (req : Request) (key : String) (now : Nat) :
    List String :=
  match req with
  | Request.registerReq _ =>
      getDbSql ++ ["INSERT INTO users (username, password_hash) VALUES (?, ?)"]
  | Request.loginReq _ =>
      getDbSql ++ ["SELECT * FROM users WHERE username=?"]
  | Request.addThoughtReq body token =>
      match ThoughtCreate.validate body with
      | Except.error _ => []
      | Except.ok _ =>
          match get_current_user token key now with
          | Except.error _ => []
          | Except.ok user =>
              getDbSql ++ ["SELECT id FROM users WHERE username=?"] ++
                match findUserByName db user with
                | none => []
                | some _ =>
                    ["INSERT INTO thoughts (content, book_title, mood, user_id) VALUES (?, ?, ?, ?)"]
  | Request.randomReq =>
      getDbSql ++ ["SELECT t.id, t.content, t.book_title, t.mood, u.username FROM thoughts t JOIN users u ON t.user_id = u.id GROUP BY t.book_title ORDER BY RANDOM() LIMIT 8"]
  | Request.mineReq token =>
      match get_current_user token key now with
      | Except.error _ => []
      | Except.ok user =>
          getDbSql ++ ["SELECT id FROM users WHERE username=?"] ++
            match findUserByName db user with
            | none => []
            | some _ =>
                ["SELECT ... FROM thoughts t JOIN users u ON t.user_id = u.id WHERE u.id = ? ORDER BY t.id DESC",
                 "SELECT ... FROM thoughts t JOIN resonances r ON t.id = r.thought_id JOIN users u ON t.user_id = u.id WHERE r.user_id = ? ORDER BY r.timestamp DESC"]
  | Request.searchReq _ =>
      getDbSql ++ ["SELECT t.content, t.book_title, t.mood, u.username FROM thoughts t JOIN users u ON t.user_id = u.id WHERE t.book_title LIKE ? OR t.content LIKE ? ORDER BY t.id DESC LIMIT 20"]
  | Request.resonateReq thought_id token =>
      match get_current_user token key now with
      | Except.error _ => []
      | Except.ok user =>
          getDbSql ++ ["SELECT id FROM users WHERE username=?"] ++
            match findUserByName db user with
            | none => []
            | some u_row =>
                ["SELECT 1 FROM resonances WHERE user_id=? AND thought_id=?"] ++
                  if hasRes db u_row.id thought_id then
                    ["DELETE FROM resonances WHERE user_id=? AND thought_id=?"]
                  else
                    ["INSERT INTO resonances (user_id, thought_id) VALUES (?, ?)"]
  | Request.resonatedReq thought_id token =>
      match get_current_user token key now with
      | Except.error _ => []
      | Except.ok user =>
          getDbSql ++ ["SELECT id FROM users WHERE username=?"] ++
            match findUserByName db user with
            | none => []
            | some _ =>
                ["SELECT 1 FROM resonances WHERE user_id=? AND thought_id=?"]
  | Request.deleteReq thought_id token =>
      match get_current_user token key now with
      | Except.error _ => []
      | Except.ok user =>
          getDbSql ++ ["SELECT id FROM users WHERE username=?"] ++
            match findUserByName db user with
            | none => []
            | some u_row =>
                ["SELECT user_id FROM thoughts WHERE id=?"] ++
                  match findThoughtById db thought_id with
                  | none => []
                  | some t_row =>
                      if t_row.user_id ≠ u_row.id then []
                      else
                        ["DELETE FROM resonances WHERE thought_id=?",
                         "DELETE FROM thoughts WHERE id=?"]

/-- The effect trace of a request: handlers only execute SQL. -/
def effectTrace (db : DB) (req : Request) (key : String) (now : Nat) :
    List Effect :=
  (sqlOf db req key now).map Effect.dbExec

/-! ## Concrete fixtures for witnesses and counterexamples -/

/-- The claim-language substring predicate: q occurs contiguously in s. -/
def listContains (s q : List Char) : Bool :=
  (List.range (s.length + 1)).any (fun i => (s.drop i).take q.length == q)

/-- The SECRET_KEY fallback value. -/
def devKey : String := "dev_secret"

/-- A token for alice issued at time 0. -/
def tokenAlice : Token := create_token "alice" devKey 0

/-- A one-user database produced by registering alice. -/
def dbAlice : DB := ⟨[⟨1, "alice", "h1"⟩], [], []⟩

/-- dbAlice after alice toggles resonance on the nonexistent thought 99. -/
def dbOrphan : DB := ⟨[⟨1, "alice", "h1"⟩], [], [⟨1, 99, 0⟩]⟩

/-- A database with users alice and bob, one thought authored by alice,
and bob resonating with it. -/
def dbTwo : DB :=
  ⟨[⟨1, "alice", "h1"⟩, ⟨2, "bob", "h2"⟩],
   [⟨1, "x", "y", "calm", 1⟩],
   [⟨2, 1, 5⟩]⟩

/-- A token for bob issued at time 0. -/
def tokenBob : Token := create_token "bob" devKey 0

/-- A token for carol, who is registered in no database here. -/
def tokenCarol : Token := create_token "carol" devKey 0

/-! ## Theorems -/

/-- C5: login fails with the single uniform 401 "Bad credentials" error in
both failure cases — unknown username and failed password verification —
producing the identical response value for the two causes; on success it
returns a signed token whose sub claim is the given username. -/
theorem login_uniform_bad_credentials (db : DB) (user : UserAuth)
    (verify : String → String → Bool) (key : String) (now : Nat) :
    (findUserByName db user.username = none →
      login db user verify key now = Except.error (401, "Bad credentials")) ∧
    (∀ row, findUserByName db user.username = some row →
      verify user.password row.password_hash = false →
      login db user verify key now = Except.error (401, "Bad credentials")) ∧
    (∀ row, findUserByName db user.username = some row →
      verify user.password row.password_hash = true →
      login db user verify key now =
        Except.ok (Token.signed ⟨some user.username, now + 60⟩ key)) := by
  refine ⟨fun h => ?_, fun row h hv => ?_, fun row h hv => ?_⟩
  · simp [login, h]
  · simp [login, h, hv]
  · simp [login, h, hv, create_token]

/-- Witness for C5 at concrete inputs: dbAlice with a verifier that accepts
exactly the stored hash h1. -/
theorem login_uniform_bad_credentials_witness :
    login dbAlice ⟨"carol", "pw"⟩ (fun _ h => h == "h1") devKey 0 =
      Except.error (401, "Bad credentials") ∧
    login dbAlice ⟨"alice", "pw"⟩ (fun _ _ => false) devKey 0 =
      Except.error (401, "Bad credentials") ∧
    login dbAlice ⟨"alice", "pw"⟩ (fun _ h => h == "h1") devKey 0 =
      Except.ok (Token.signed ⟨some "alice", 60⟩ devKey) :=
  ⟨(login_uniform_bad_credentials dbAlice ⟨"carol", "pw"⟩ _ devKey 0).1 rfl,
   (login_uniform_bad_credentials dbAlice ⟨"alice", "pw"⟩ _ devKey 0).2.1
     ⟨1, "alice", "h1"⟩ rfl rfl,
   (login_uniform_bad_credentials dbAlice ⟨"alice", "pw"⟩ _ devKey 0).2.2
     ⟨1, "alice", "h1"⟩ rfl rfl⟩

/-- C6: the resonance-status endpoint is a total boolean function of the
request: it returns true exactly when the token decodes to a username that
maps to a user row for which the (user, thought) resonance row exists, and
false in every other situation (invalid, expired or malformed token,
missing sub claim, unknown user, or no resonance row) — never an error. -/
theorem is_resonated_total_spec (db : DB) (tid : Nat) (token : Token)
    (key : String) (now : Nat) :
    is_resonated db tid token key now = true ↔
      ∃ username u_row,
        get_current_user token key now = Except.ok username ∧
        findUserByName db username = some u_row ∧
        hasRes db u_row.id tid = true := by
  cases hgc : get_current_user token key now with
  | error e => simp [is_resonated, is_resonated_body, hgc]
  | ok username =>
      cases hfu : findUserByName db username with
      | none => simp [is_resonated, is_resonated_body, hgc, hfu]
      | some u_row => simp [is_resonated, is_resonated_body, hgc, hfu]

/-- C8: a token issued at time T carries exp = T + 60 (minutes); validation
accepts it at every time up to and including T + 60 and rejects it with
401 strictly after; malformed tokens, tokens signed with a different key,
and tokens without a sub claim are rejected with 401 at every time. -/
theorem token_lifetime (username key : String) (now t : Nat) :
    create_token username key now = Token.signed ⟨some username, now + 60⟩ key ∧
    (t ≤ now + 60 →
      get_current_user (create_token username key now) key t =
        Except.ok username) ∧
    (now + 60 < t →
      get_current_user (create_token username key now) key t =
        Except.error (401, "Invalid token")) ∧
    (∀ raw, get_current_user (Token.malformed raw) key t =
      Except.error (401, "Invalid token")) ∧
    (∀ payload k2, k2 ≠ key →
      get_current_user (Token.signed payload k2) key t =
        Except.error (401, "Invalid token")) ∧
    (∀ e, get_current_user (Token.signed ⟨none, e⟩ key) key t =
      Except.error (401, "Invalid token")) := by
  refine ⟨rfl, fun h => ?_, fun h => ?_, fun raw => ?_,
    fun payload k2 h => ?_, fun e => ?_⟩
  · simp [get_current_user, jwt_decode, create_token, Nat.not_lt.mpr h]
  · simp [get_current_user, jwt_decode, create_token, h]
  · simp [get_current_user, jwt_decode]
  · simp [get_current_user, jwt_decode, h]
  · by_cases h2 : e < t <;> simp [get_current_user, jwt_decode, h2]

/-- Witness for C8: a token issued at time 0 is accepted at time 60 and
rejected at time 61. -/
theorem token_lifetime_witness :
    get_current_user (create_token "alice" devKey 0) devKey 60 =
      Except.ok "alice" ∧
    get_current_user (create_token "alice" devKey 0) devKey 61 =
      Except.error (401, "Invalid token") :=
  ⟨(token_lifetime "alice" devKey 0 60).2.1 (by decide),
   (token_lifetime "alice" devKey 0 61).2.2.1 (by decide)⟩

/-- C9: for every database state and every request to any of the nine
endpoints, the handler effect trace consists of SQL statements only and
never contains the filesystem wipe; the wipe exists in the module solely as
the never-called demo_hack. -/
theorem no_fs_wipe (db : DB) (req : Request) (key : String) (now : Nat) :
    Effect.fsWipe ∉ effectTrace db req key now ∧
      demo_hack = [Effect.fsWipe] := by
  refine ⟨fun hmem => ?_, rfl⟩
  rw [effectTrace, List.mem_map] at hmem
  obtain ⟨s, _, h⟩ := hmem
  exact Effect.noConfusion h

/-- C10: with a valid token whose subject maps to no user row, the 401
"User not found" raised inside toggle_resonance is swallowed by its own
catch-all and the endpoint returns 400 "Error processing resonance",
while add_thought, get_my_thoughts and delete_thought answer 401 in the
same situation. -/
theorem toggle_unknown_user_400 (db : DB) (tid : Nat) (token : Token)
    (key : String) (now ts : Nat) (username : String) (item : ThoughtCreate)
    (htok : get_current_user token key now = Except.ok username)
    (hu : findUserByName db username = none) :
    toggle_resonance db tid token key now ts =
      (db, Except.error (400, "Error processing resonance")) ∧
    add_thought db item token key now =
      (db, Except.error (401, "User not found")) ∧
    get_my_thoughts db token key now = Except.error (401, "User not found") ∧
    delete_thought db tid token key now =
      (db, Except.error (401, "Invalid user")) := by
  refine ⟨?_, ?_, ?_, ?_⟩ <;>
    simp [toggle_resonance, add_thought, get_my_thoughts, delete_thought,
      htok, hu]

/-- Witness for C10: carol has a valid token but no user row in dbAlice. -/
theorem toggle_unknown_user_400_witness :
    toggle_resonance dbAlice 1 tokenCarol devKey 0 0 =
      (dbAlice, Except.error (400, "Error processing resonance")) ∧
    add_thought dbAlice ⟨"c", "b", "m"⟩ tokenCarol devKey 0 =
      (dbAlice, Except.error (401, "User not found")) ∧
    get_my_thoughts dbAlice tokenCarol devKey 0 =
      Except.error (401, "User not found") ∧
    delete_thought dbAlice 1 tokenCarol devKey 0 =
      (dbAlice, Except.error (401, "Invalid user")) :=
  toggle_unknown_user_400 dbAlice 1 tokenCarol devKey 0 0 "carol"
    ⟨"c", "b", "m"⟩ rfl rfl

/-- C3 counterexample: an authenticated request that supplies content and
book_title but omits mood is rejected by pydantic validation with 422 (the
ThoughtCreate field mood: str has no default), so it does not succeed with
"Saved" and stores nothing. -/
theorem mood_required_cex :
    add_thought_endpoint dbAlice ⟨some "great", some "B", none⟩ tokenAlice
        devKey 0 =
      (dbAlice, Except.error (422, "Unprocessable Entity")) ∧
    (add_thought_endpoint dbAlice ⟨some "great", some "B", none⟩ tokenAlice
        devKey 0).2 ≠ Except.ok "Saved" :=
  ⟨rfl, by simp [add_thought_endpoint, ThoughtCreate.validate]⟩

/-- C3 amended: mood is required, not optional — a body omitting mood is
rejected with a 422 validation error and the store is unchanged, while a
body supplying all three fields succeeds with "Saved" and stores the
thought with the supplied mood. -/
theorem add_thought_mood_required (db : DB) (token : Token) (key : String)
    (now : Nat) (username c b : String) (u_row : UserRow)
    (htok : get_current_user token key now = Except.ok username)
    (hu : findUserByName db username = some u_row) :
    add_thought_endpoint db ⟨some c, some b, none⟩ token key now =
      (db, Except.error (422, "Unprocessable Entity")) ∧
    (∀ m, add_thought_endpoint db ⟨some c, some b, some m⟩ token key now =
      ({ db with
          thoughts := db.thoughts ++
            [⟨nextId (db.thoughts.map (fun t => t.id)), c, b, m, u_row.id⟩] },
       Except.ok "Saved")) := by
  constructor
  · simp [add_thought_endpoint, ThoughtCreate.validate]
  · intro m
    simp [add_thought_endpoint, ThoughtCreate.validate, add_thought, htok, hu]

/-- Witness for the amended C3 at alice and dbAlice. -/
theorem add_thought_mood_required_witness :
    add_thought_endpoint dbAlice ⟨some "c", some "b", none⟩ tokenAlice
        devKey 0 =
      (dbAlice, Except.error (422, "Unprocessable Entity")) ∧
    (∀ m, add_thought_endpoint dbAlice ⟨some "c", some "b", some m⟩
        tokenAlice devKey 0 =
      ({ dbAlice with
          thoughts := dbAlice.thoughts ++
            [⟨nextId (dbAlice.thoughts.map (fun t => t.id)), "c", "b", m, 1⟩] },
       Except.ok "Saved")) :=
  add_thought_mood_required dbAlice tokenAlice devKey 0 "alice" "c" "b"
    ⟨1, "alice", "h1"⟩ rfl rfl

/-- register leaves resonances unchanged and only ever grows users. -/
theorem register_state (db : DB) (user : UserAuth) (hashed : String)
    (db2 : DB) (r : Except Err String)
    (h : register db user hashed = (db2, r)) :
    db2.resonances = db.resonances ∧ ∀ u ∈ db.users, u ∈ db2.users := by
  unfold register at h
  split at h
  · injection h with h1 _; subst h1; exact ⟨rfl, fun u hu => hu⟩
  · injection h with h1 _; subst h1
    exact ⟨rfl, fun u hu => List.mem_append_left _ hu⟩

/-- add_thought leaves users and resonances unchanged. -/
theorem add_thought_state (db : DB) (item : ThoughtCreate) (token : Token)
    (key : String) (now : Nat) (db2 : DB) (r : Except Err String)
    (h : add_thought db item token key now = (db2, r)) :
    db2.users = db.users ∧ db2.resonances = db.resonances := by
  unfold add_thought at h
  split at h
  · injection h with h1 _; subst h1; exact ⟨rfl, rfl⟩
  · split at h
    · injection h with h1 _; subst h1; exact ⟨rfl, rfl⟩
    · injection h with h1 _; subst h1; exact ⟨rfl, rfl⟩

/-- toggle_resonance leaves users and thoughts unchanged, and every
resonance row it leaves behind either was already there or carries the id
of an existing user. -/
theorem toggle_resonance_state (db : DB) (tid : Nat) (token : Token)
    (key : String) (now ts : Nat) (db2 : DB) (r : Except Err String)
    (h : toggle_resonance db tid token key now ts = (db2, r)) :
    db2.users = db.users ∧ db2.thoughts = db.thoughts ∧
      ∀ x ∈ db2.resonances,
        x ∈ db.resonances ∨ ∃ u ∈ db.users, u.id = x.user_id := by
  unfold toggle_resonance at h
  cases hgc : get_current_user token key now with
  | error e =>
      rw [hgc] at h
      injection h with h1 _; subst h1
      exact ⟨rfl, rfl, fun x hx => Or.inl hx⟩
  | ok username =>
      rw [hgc] at h
      dsimp only at h
      cases hfu : findUserByName db username with
      | none =>
          rw [hfu] at h
          dsimp only at h
          injection h with h1 _; subst h1
          exact ⟨rfl, rfl, fun x hx => Or.inl hx⟩
      | some u_row =>
          rw [hfu] at h
          dsimp only at h
          cases hres : db.resonances.find? (fun x =>
              x.user_id == u_row.id && x.thought_id == tid) with
          | some y =>
              rw [hres] at h
              dsimp only at h
              injection h with h1 _; subst h1
              refine ⟨rfl, rfl, fun x hx => Or.inl ?_⟩
              exact List.mem_of_mem_filter hx
          | none =>
              rw [hres] at h
              dsimp only at h
              injection h with h1 _; subst h1
              refine ⟨rfl, rfl, fun x hx => ?_⟩
              rcases List.mem_append.mp hx with hx2 | hx2
              · exact Or.inl hx2
              · refine Or.inr ⟨u_row, List.mem_of_find?_eq_some hfu, ?_⟩
                have : x = ⟨u_row.id, tid, ts⟩ := by
                  simpa using hx2
                rw [this]

/-- delete_thought leaves users unchanged and only removes resonances. -/
theorem delete_thought_state (db : DB) (tid : Nat) (token : Token)
    (key : String) (now : Nat) (db2 : DB) (r : Except Err String)
    (h : delete_thought db tid token key now = (db2, r)) :
    db2.users = db.users ∧ ∀ x ∈ db2.resonances, x ∈ db.resonances := by
  unfold delete_thought at h
  split at h
  · injection h with h1 _; subst h1; exact ⟨rfl, fun x hx => hx⟩
  · split at h
    · injection h with h1 _; subst h1; exact ⟨rfl, fun x hx => hx⟩
    · split at h
      · injection h with h1 _; subst h1; exact ⟨rfl, fun x hx => hx⟩
      · split at h
        · injection h with h1 _; subst h1; exact ⟨rfl, fun x hx => hx⟩
        · injection h with h1 _; subst h1
          exact ⟨rfl, fun x hx => List.mem_of_mem_filter hx⟩

/-- C4 counterexample: starting from the empty store, register alice, then
let alice toggle resonance on thought id 99, which no thoughts row has —
toggle_resonance checks no thought existence and the declared FOREIGN KEY
is unenforced, so the reachable state dbOrphan holds a resonance row whose
thought_id references no thoughts row. -/
theorem resonance_thought_integrity_cex :
    Reachable dbOrphan ∧
    dbOrphan.resonances = [⟨1, 99, 0⟩] ∧
    dbOrphan.thoughts = [] ∧
    findThoughtById dbOrphan 99 = none :=
  ⟨Reachable.step_toggle dbAlice 99 tokenAlice devKey 0 0 dbOrphan
      (Except.ok "Saved")
      (Reachable.step_register DB.empty ⟨"alice", "pw"⟩ "h1" dbAlice
        (Except.ok "Created") Reachable.init rfl)
      rfl,
   rfl, rfl, rfl⟩

/-- C4 amended: in every reachable database state each resonance row
references an existing users row (users are never deleted and toggle only
inserts for a resolved user); the thought-side of the invariant fails
because toggle_resonance never checks that the thought exists. -/
theorem resonance_user_integrity (db : DB) (h : Reachable db) :
    ∀ x ∈ db.resonances, ∃ u ∈ db.users, u.id = x.user_id := by
  induction h with
  | init => intro x hx; simp [DB.empty] at hx
  | step_register db user hashed db2 r hr heq ih =>
      obtain ⟨hres, husers⟩ := register_state db user hashed db2 r heq
      intro x hx
      rw [hres] at hx
      obtain ⟨u, hu, hid⟩ := ih x hx
      exact ⟨u, husers u hu, hid⟩
  | step_add db item token key now db2 r hr heq ih =>
      obtain ⟨husers, hres⟩ := add_thought_state db item token key now db2 r heq
      intro x hx
      rw [hres] at hx
      obtain ⟨u, hu, hid⟩ := ih x hx
      rw [husers]
      exact ⟨u, hu, hid⟩
  | step_toggle db tid token key now ts db2 r hr heq ih =>
      obtain ⟨husers, _, hres⟩ :=
        toggle_resonance_state db tid token key now ts db2 r heq
      intro x hx
      rw [husers]
      rcases hres x hx with hx2 | ⟨u, hu, hid⟩
      · exact ih x hx2
      · exact ⟨u, hu, hid⟩
  | step_delete db tid token key now db2 r hr heq ih =>
      obtain ⟨husers, hres⟩ :=
        delete_thought_state db tid token key now db2 r heq
      intro x hx
      rw [husers]
      exact ih x (hres x hx)

/-- Witness for the amended C4 at the reachable state dbOrphan. -/
theorem resonance_user_integrity_witness :
    ∃ u ∈ dbOrphan.users, u.id = (⟨1, 99, 0⟩ : ResonanceRow).user_id :=
  resonance_user_integrity dbOrphan
    (Reachable.step_toggle dbAlice 99 tokenAlice devKey 0 0 dbOrphan
      (Except.ok "Saved")
      (Reachable.step_register DB.empty ⟨"alice", "pw"⟩ "h1" dbAlice
        (Except.ok "Created") Reachable.init rfl)
      rfl)
    ⟨1, 99, 0⟩ (by simp [dbOrphan])

/-- Filtering out exactly the rows satisfying p leaves none satisfying p. -/
theorem any_filter_self (l : List ResonanceRow) (p : ResonanceRow → Bool) :
    (l.filter (fun x => !(p x))).any p = false := by
  rw [List.any_eq_false]
  intro x hx
  have h2 := (List.mem_filter.mp hx).2
  simp only [Bool.not_eq_true'] at h2
  simp [h2]

/-- Deleting the (a, b) resonance key does not change whether any other
key is present. -/
theorem any_filter_not_key (l : List ResonanceRow) (a b u2 t2 : Nat)
    (hne : ¬(u2 = a ∧ t2 = b)) :
    ((l.filter (fun x => !(x.user_id == a && x.thought_id == b))).any
      (fun x => x.user_id == u2 && x.thought_id == t2)) =
    (l.any (fun x => x.user_id == u2 && x.thought_id == t2)) := by
  induction l with
  | nil => rfl
  | cons x xs ih =>
      rw [List.filter_cons]
      cases hp : (x.user_id == a && x.thought_id == b) with
      | true =>
          have hq : (x.user_id == u2 && x.thought_id == t2) = false := by
            simp only [Bool.and_eq_true, beq_iff_eq] at hp
            by_contra hq2
            simp only [Bool.not_eq_false, Bool.and_eq_true, beq_iff_eq] at hq2
            exact hne ⟨hq2.1 ▸ hp.1, hq2.2 ▸ hp.2⟩
          rw [if_neg (by decide : ¬((!true : Bool) = true))]
          rw [ih, List.any_cons, hq, Bool.false_or]
      | false =>
          rw [if_pos (by decide : ((!false : Bool) = true))]
          rw [List.any_cons, List.any_cons, ih]

/-- The authenticated behaviour of toggle_resonance: delete the resonance
row and answer "Unsaved" when it exists, insert it and answer "Saved" when
it does not. -/
theorem toggle_auth (db : DB) (tid : Nat) (token : Token) (key : String)
    (now ts : Nat) (username : String) (u : UserRow)
    (htok : get_current_user token key now = Except.ok username)
    (hu : findUserByName db username = some u) :
    toggle_resonance db tid token key now ts =
      if hasRes db u.id tid then
        ({ db with resonances := db.resonances.filter (fun x =>
            !(x.user_id == u.id && x.thought_id == tid)) },
         Except.ok "Unsaved")
      else
        ({ db with resonances := db.resonances ++ [⟨u.id, tid, ts⟩] },
         Except.ok "Saved") := by
  cases hres : db.resonances.find? (fun x =>
      x.user_id == u.id && x.thought_id == tid) with
  | none =>
      have hhas : hasRes db u.id tid = false := by
        simp only [hasRes]
        rw [List.any_eq_false]
        intro x hx
        exact List.find?_eq_none.mp hres x hx
      simp [toggle_resonance, htok, hu, hres, hhas]
  | some y =>
      have hhas : hasRes db u.id tid = true := by
        have hy := List.find?_some hres
        simp only [hasRes]
        rw [List.any_eq_true]
        exact ⟨y, List.mem_of_find?_eq_some hres, hy⟩
      simp [toggle_resonance, htok, hu, hres, hhas]

/-- C1: for an authenticated user, toggle_resonance answers "Saved" and
inserts the (user, thought) resonance key when absent and "Unsaved" and
deletes it when present; two successive toggles restore the original set
of resonance keys exactly (and the row list itself when starting from
absent), and the two statuses alternate deterministically. -/
theorem toggle_resonance_toggles (db : DB) (tid : Nat) (token : Token)
    (key : String) (now ts1 ts2 : Nat) (username : String) (u : UserRow)
    (htok : get_current_user token key now = Except.ok username)
    (hu : findUserByName db username = some u) :
    ∃ db1 s1 db2 s2,
      toggle_resonance db tid token key now ts1 = (db1, Except.ok s1) ∧
      toggle_resonance db1 tid token key now ts2 = (db2, Except.ok s2) ∧
      (hasRes db u.id tid = false →
        s1 = "Saved" ∧ s2 = "Unsaved" ∧ db2.resonances = db.resonances) ∧
      (hasRes db u.id tid = true → s1 = "Unsaved" ∧ s2 = "Saved") ∧
      hasRes db1 u.id tid = !hasRes db u.id tid ∧
      (∀ uid2 tid2, hasRes db2 uid2 tid2 = hasRes db uid2 tid2) ∧
      s1 ≠ s2 := by
  cases hhas : hasRes db u.id tid with
  | false =>
      have hall : ∀ x ∈ db.resonances,
          (x.user_id == u.id && x.thought_id == tid) = false := by
        intro x hx
        have := List.any_eq_false.mp hhas x hx
        simpa using this
      have h1 : toggle_resonance db tid token key now ts1 =
          ({ db with resonances := db.resonances ++ [⟨u.id, tid, ts1⟩] },
           Except.ok "Saved") := by
        rw [toggle_auth db tid token key now ts1 username u htok hu, hhas]
        simp
      have hu1 : findUserByName
          { db with resonances := db.resonances ++ [⟨u.id, tid, ts1⟩] }
          username = some u := hu
      have hhas1 : hasRes
          { db with resonances := db.resonances ++ [⟨u.id, tid, ts1⟩] }
          u.id tid = true := by
        simp [hasRes, List.any_append]
      have h2 : toggle_resonance
          { db with resonances := db.resonances ++ [⟨u.id, tid, ts1⟩] }
          tid token key now ts2 =
          ({ db with resonances :=
              (db.resonances ++ [(⟨u.id, tid, ts1⟩ : ResonanceRow)]).filter (fun x =>
                !(x.user_id == u.id && x.thought_id == tid)) },
           Except.ok "Unsaved") := by
        rw [toggle_auth _ tid token key now ts2 username u htok hu1, hhas1]
        simp
      have hfself : db.resonances.filter (fun x =>
          !(x.user_id == u.id && x.thought_id == tid)) = db.resonances :=
        List.filter_eq_self.mpr (fun x hx => by simp [hall x hx])
      have hback : (db.resonances ++ [(⟨u.id, tid, ts1⟩ : ResonanceRow)]).filter (fun x =>
          !(x.user_id == u.id && x.thought_id == tid)) = db.resonances := by
        rw [List.filter_append, hfself]
        simp
      refine ⟨{ db with resonances := db.resonances ++ [⟨u.id, tid, ts1⟩] },
        "Saved",
        { db with resonances :=
            (db.resonances ++ [(⟨u.id, tid, ts1⟩ : ResonanceRow)]).filter (fun x =>
              !(x.user_id == u.id && x.thought_id == tid)) },
        "Unsaved", h1, h2, fun _ => ⟨rfl, rfl, hback⟩,
        fun hc => Bool.noConfusion hc,
        by rw [hhas1]; rfl,
        fun uid2 tid2 => by simp only [hasRes]; rw [hback],
        by decide⟩
  | true =>
      have h1 : toggle_resonance db tid token key now ts1 =
          ({ db with resonances := db.resonances.filter (fun x =>
              !(x.user_id == u.id && x.thought_id == tid)) },
           Except.ok "Unsaved") := by
        rw [toggle_auth db tid token key now ts1 username u htok hu, hhas]
        simp
      have hu1 : findUserByName
          { db with resonances := db.resonances.filter (fun x =>
              !(x.user_id == u.id && x.thought_id == tid)) }
          username = some u := hu
      have hhas1 : hasRes
          { db with resonances := db.resonances.filter (fun x =>
              !(x.user_id == u.id && x.thought_id == tid)) }
          u.id tid = false :=
        any_filter_self db.resonances
          (fun x => x.user_id == u.id && x.thought_id == tid)
      have h2 : toggle_resonance
          { db with resonances := db.resonances.filter (fun x =>
              !(x.user_id == u.id && x.thought_id == tid)) }
          tid token key now ts2 =
          ({ db with resonances :=
              db.resonances.filter (fun x =>
                !(x.user_id == u.id && x.thought_id == tid)) ++
                [⟨u.id, tid, ts2⟩] },
           Except.ok "Saved") := by
        rw [toggle_auth _ tid token key now ts2 username u htok hu1, hhas1]
        simp
      refine ⟨{ db with resonances := db.resonances.filter (fun x =>
            !(x.user_id == u.id && x.thought_id == tid)) },
        "Unsaved",
        { db with resonances :=
            db.resonances.filter (fun x =>
              !(x.user_id == u.id && x.thought_id == tid)) ++
              [⟨u.id, tid, ts2⟩] },
        "Saved", h1, h2,
        fun hc => Bool.noConfusion hc,
        fun _ => ⟨rfl, rfl⟩,
        by rw [hhas1]; rfl,
        fun uid2 tid2 => ?_,
        by decide⟩
      by_cases hkey : uid2 = u.id ∧ tid2 = tid
      · obtain ⟨hk1, hk2⟩ := hkey
        subst hk1; subst hk2
        rw [hhas]
        simp [hasRes, List.any_append]
      · have hq : ((⟨u.id, tid, ts2⟩ : ResonanceRow).user_id == uid2 &&
            (⟨u.id, tid, ts2⟩ : ResonanceRow).thought_id == tid2) = false := by
          by_contra hq2
          simp only [Bool.not_eq_false, Bool.and_eq_true, beq_iff_eq] at hq2
          exact hkey ⟨hq2.1.symm, hq2.2.symm⟩
        have hkeep := any_filter_not_key db.resonances u.id tid uid2 tid2 hkey
        simp only [hasRes, List.any_append, List.any_cons, List.any_nil]
        rw [hkeep]
        simp [hq]

/-- Witness for C1: alice toggles thought 1 twice on dbAlice. -/
theorem toggle_resonance_toggles_witness :
    ∃ db1 s1 db2 s2,
      toggle_resonance dbAlice 1 tokenAlice devKey 0 1 =
        (db1, Except.ok s1) ∧
      toggle_resonance db1 1 tokenAlice devKey 0 2 = (db2, Except.ok s2) ∧
      (hasRes dbAlice 1 1 = false →
        s1 = "Saved" ∧ s2 = "Unsaved" ∧
          db2.resonances = dbAlice.resonances) ∧
      (hasRes dbAlice 1 1 = true → s1 = "Unsaved" ∧ s2 = "Saved") ∧
      hasRes db1 1 1 = !hasRes dbAlice 1 1 ∧
      (∀ uid2 tid2, hasRes db2 uid2 tid2 = hasRes dbAlice uid2 tid2) ∧
      s1 ≠ s2 :=
  toggle_resonance_toggles dbAlice 1 tokenAlice devKey 0 1 2 "alice"
    ⟨1, "alice", "h1"⟩ rfl rfl

/-- C2: for an authenticated delete, a missing thought id answers 404 with
the store unchanged; a thought owned by another user answers 403 with the
store unchanged and the row still present; otherwise the thought and every
resonance row referencing it are removed together, users are untouched,
and re-deleting answers 404. -/
theorem delete_thought_spec (db : DB) (tid : Nat) (token : Token)
    (key : String) (now : Nat) (username : String) (u : UserRow)
    (htok : get_current_user token key now = Except.ok username)
    (hu : findUserByName db username = some u) :
    (findThoughtById db tid = none →
      delete_thought db tid token key now =
        (db, Except.error (404, "Not found"))) ∧
    (∀ t, findThoughtById db tid = some t → t.user_id ≠ u.id →
      delete_thought db tid token key now =
        (db, Except.error (403, "Not owner")) ∧ t ∈ db.thoughts) ∧
    (∀ t, findThoughtById db tid = some t → t.user_id = u.id →
      ∃ db2,
        delete_thought db tid token key now = (db2, Except.ok "Deleted") ∧
        (∀ x ∈ db2.resonances, x.thought_id ≠ tid) ∧
        (∀ x ∈ db2.thoughts, x.id ≠ tid) ∧
        findThoughtById db2 tid = none ∧
        db2.users = db.users ∧
        delete_thought db2 tid token key now =
          (db2, Except.error (404, "Not found"))) := by
  refine ⟨fun h => ?_, fun t ht hne => ⟨?_, ?_⟩, fun t ht howner => ?_⟩
  · simp [delete_thought, htok, hu, h]
  · simp [delete_thought, htok, hu, ht, hne]
  · exact List.mem_of_find?_eq_some ht
  · have hdel : delete_thought db tid token key now =
        ({ db with
            resonances := db.resonances.filter (fun x =>
              !(x.thought_id == tid)),
            thoughts := db.thoughts.filter (fun x => !(x.id == tid)) },
         Except.ok "Deleted") := by
      simp [delete_thought, htok, hu, ht, howner]
    have hnone : findThoughtById
        { db with
            resonances := db.resonances.filter (fun x =>
              !(x.thought_id == tid)),
            thoughts := db.thoughts.filter (fun x => !(x.id == tid)) }
        tid = none := by
      apply List.find?_eq_none.mpr
      intro x hx
      have h2 := (List.mem_filter.mp hx).2
      simpa using h2
    have hu2 : findUserByName
        { db with
            resonances := db.resonances.filter (fun x =>
              !(x.thought_id == tid)),
            thoughts := db.thoughts.filter (fun x => !(x.id == tid)) }
        username = some u := hu
    refine ⟨_, hdel, ?_, ?_, hnone, rfl, ?_⟩
    · intro x hx
      have h2 := (List.mem_filter.mp hx).2
      simpa using h2
    · intro x hx
      have h2 := (List.mem_filter.mp hx).2
      simpa using h2
    · simp [delete_thought, htok, hu2, hnone]

/-- Witness for C2: alice deletes her thought 1 in dbTwo, where bob has
resonated with it. -/
theorem delete_thought_spec_witness :
    ∃ db2,
      delete_thought dbTwo 1 tokenAlice devKey 0 =
        (db2, Except.ok "Deleted") ∧
      (∀ x ∈ db2.resonances, x.thought_id ≠ 1) ∧
      (∀ x ∈ db2.thoughts, x.id ≠ 1) ∧
      findThoughtById db2 1 = none ∧
      db2.users = dbTwo.users ∧
      delete_thought db2 1 tokenAlice devKey 0 =
        (db2, Except.error (404, "Not found")) :=
  (delete_thought_spec dbTwo 1 tokenAlice devKey 0 "alice" ⟨1, "alice", "h1"⟩
    rfl rfl).2.2 ⟨1, "x", "y", "calm", 1⟩ rfl rfl

/-- The empty suffix is a suffix of every string. -/
theorem nil_mem_suffixes (s : List Char) : [] ∈ suffixes s := by
  induction s with
  | nil => simp [suffixes]
  | cons c cs ih => exact List.mem_cons_of_mem _ ih

/-- The pattern % matches every string. -/
theorem likeMatch_one_percent (s : List Char) : likeMatch ['%'] s = true := by
  rw [show likeMatch ['%'] s = (suffixes s).any (fun t => likeMatch [] t)
    from rfl]
  rw [List.any_eq_true]
  exact ⟨[], nil_mem_suffixes s, rfl⟩

/-- The pattern %% bound for an empty query matches every string. -/
theorem likePat_empty (s : List Char) : likeMatch (likePat "") s = true := by
  rw [show likePat "" = ['%', '%'] from rfl]
  rw [show likeMatch ['%', '%'] s =
    (suffixes s).any (fun t => likeMatch ['%'] t) from rfl]
  rw [List.any_eq_true]
  exact ⟨[], nil_mem_suffixes s, likeMatch_one_percent []⟩

/-- C7 amended: search returns at most 20 joined rows, each of whose
thought has book_title or content matching the sqlite LIKE pattern %q%
(ASCII-case-insensitive, with % and _ as wildcards), ordered by descending
thought id; the empty query matches every thought, so it returns the first
20 joined rows newest first; the response projects out content,
book_title, mood and username. -/
theorem search_like_spec (db : DB) (q : String) :
    (searchRows db q).length ≤ 20 ∧
    (∀ p ∈ searchRows db q,
      likeMatch (likePat q) p.1.book_title.data = true ∨
        likeMatch (likePat q) p.1.content.data = true) ∧
    List.Sorted byIdDesc (searchRows db q) ∧
    searchRows db "" =
      (List.insertionSort byIdDesc (joinThoughtsUsers db)).take 20 ∧
    search db q = (searchRows db q).map (fun p =>
      ⟨p.1.content, p.1.book_title, p.1.mood, p.2.username⟩) := by
  refine ⟨?_, ?_, ?_, ?_, rfl⟩
  · rw [searchRows, List.length_take]
    exact min_le_left _ _
  · intro p hp
    have h1 := List.mem_of_mem_take hp
    rw [List.mem_insertionSort] at h1
    have h2 := (List.mem_filter.mp h1).2
    simpa using h2
  · exact List.Pairwise.sublist (List.take_sublist _ _)
      (List.sorted_insertionSort byIdDesc _)
  · rw [searchRows]
    congr 1
    congr 1
    apply List.filter_eq_self.mpr
    intro a _
    simp [likePat_empty]

/-- C7 counterexample: searching for the single character % returns the
thought of dbTwo (LIKE treats % as a wildcard), although neither its
book_title "y" nor its content "x" contains "%" as a substring. -/
theorem search_substring_cex :
    searchRows dbTwo "%" =
      [(⟨1, "x", "y", "calm", 1⟩, ⟨1, "alice", "h1"⟩)] ∧
    listContains "y".data "%".data = false ∧
    listContains "x".data "%".data = false :=
  ⟨rfl, by decide, by decide⟩

/-- Witness for the amended C7: searching dbTwo for "x" stays within the
limit and the returned row matched the LIKE pattern. -/
theorem search_like_spec_witness :
    (searchRows dbTwo "x").length ≤ 20 ∧
    (likeMatch (likePat "x") "y".data = true ∨
      likeMatch (likePat "x") "x".data = true) :=
  ⟨(search_like_spec dbTwo "x").1,
   (search_like_spec dbTwo "x").2.1
     (⟨1, "x", "y", "calm", 1⟩, ⟨1, "alice", "h1"⟩) (by decide)⟩

/-- Witness for C9 at a concrete request: the search handler trace holds
no wipe while demo_hack is exactly the wipe. -/
theorem no_fs_wipe_witness :
    Effect.fsWipe ∉ effectTrace dbTwo (Request.searchReq "a") devKey 0 ∧
      demo_hack = [Effect.fsWipe] :=
  no_fs_wipe dbTwo (Request.searchReq "a") devKey 0
